import Mathlib

set_option maxRecDepth 40000

/-!
Shallow embedding of the FLUX anime image-generation service (src/main.py).

Strings are modelled as List Char (a Python str as a sequence of code
points).  The remote diffusion pipeline call is modelled as an oracle
function of type Inference; the value produced by the library call
random.randint(0, 2**32 - 1) is an explicit natural-number input, and the
base64 encoder and the filesystem are likewise oracle parameters, since
they are external library code, not code of this repository.
-/

/- Constants of class Config in src/main.py. -/

namespace Config

def DEFAULT_STEPS : Int := 4

def MAX_STEPS : Int := 8

def DEFAULT_SEED : Int := -1

def ANIME_STYLE_SUFFIX : List Char :=
  ", **anime style, vibrant colors, fantastical, cinematic lighting, highly detailed, studio quality, trending on ArtStation.**".data

def DEFAULT_PROMPT : List Char :=
  "A serene girl standing under a cherry blossom tree".data

def DEFAULT_IMAGE_FILE : List Char :=
  "/assets/cherry_blossom_girl.png".data

end Config

/-- Python str.strip(): remove leading and trailing whitespace characters. -/
def pyStrip (s : List Char) : List Char :=
  ((s.dropWhile Char.isWhitespace).reverse.dropWhile Char.isWhitespace).reverse

/-- PromptProcessor.enhance_prompt: append the anime style suffix to the
stripped user prompt (the style_suffix argument always takes its default
value Config.ANIME_STYLE_SUFFIX at the call sites). -/
def enhance_prompt (user_prompt : List Char) : List Char :=
  pyStrip user_prompt ++ Config.ANIME_STYLE_SUFFIX

/-- PromptProcessor.validate_prompt: reject falsy or whitespace-only
prompts and prompts longer than 1000 characters. -/
def validate_prompt (prompt : List Char) : Bool :=
  if prompt.isEmpty || (pyStrip prompt).length == 0 then false
  else if prompt.length > 1000 then false
  else true

/-- The step-clamping statement appearing verbatim in both generate_image
and the /generate endpoint: if not (1 <= steps <= Config.MAX_STEPS) then
steps = Config.DEFAULT_STEPS. -/
def clampSteps (steps : Int) : Int :=
  if 1 ≤ steps ∧ steps ≤ Config.MAX_STEPS then steps else Config.DEFAULT_STEPS

/-- Seed handling in ImageGenerator.generate: the sentinel
Config.DEFAULT_SEED (-1) is replaced by the value r drawn by
random.randint(0, 2**32 - 1); any other seed is passed through. -/
def resolveSeed (r : Nat) (seed : Int) : Int :=
  if seed = Config.DEFAULT_SEED then (r : Int) else seed

/-- The remote diffusion pipeline (self.pipe(...) plus the base64
conversion), modelled as an oracle: prompt, seed and steps go in; the
base64 image string comes out, or an exception message. -/
def Inference : Type :=
  List Char → Int → Int → Except (List Char) (List Char)

/-- ImageGenerator.generate: resolve the sentinel seed, run the pipeline,
and return the base64 string together with the seed actually used.
Exceptions of the pipeline propagate (as the Except error). -/
def ImageGenerator.generate (infer : Inference) (r : Nat)
    (prompt : List Char) (seed : Int) (steps : Int) :
    Except (List Char) (List Char × Int) :=
  match infer prompt (resolveSeed r seed) steps with
  | .ok img => .ok (img, resolveSeed r seed)
  | .error e => .error e

/-- The message of the ValueError raised by generate_image on an invalid
prompt. -/
def invalidPromptMsg : List Char :=
  "Invalid prompt provided".data

/-- Python expression p[:100] + "..." if len(p) > 100 else p. -/
def truncate100 (p : List Char) : List Char :=
  if p.length > 100 then p.take 100 ++ "...".data else p

/-- The two dictionary shapes returned by generate_image: the success
dictionary carries image, seed, steps and the truncated prompt; the
failure dictionary carries the exception text together with the seed and
steps variables at the moment the exception was raised. -/
inductive GenImageResult where
  | ok (image : List Char) (seed : Int) (steps : Int) (prompt : List Char)
  | err (error : List Char) (seed : Int) (steps : Int)
  deriving DecidableEq

/-- The success flag of a generate_image dictionary. -/
def GenImageResult.success : GenImageResult → Bool
  | .ok _ _ _ _ => true
  | .err _ _ _ => false

/-- The steps entry of a generate_image dictionary. -/
def GenImageResult.stepsUsed : GenImageResult → Int
  | .ok _ _ st _ => st
  | .err _ _ st => st

/-- The seed entry of a generate_image dictionary. -/
def GenImageResult.seedUsed : GenImageResult → Int
  | .ok _ s _ _ => s
  | .err _ s _ => s

/-- generate_image (the Modal remote function): validate the prompt
(raising ValueError on failure), clamp the steps, call
ImageGenerator.generate, and catch every exception into the failure
dictionary. -/
def generate_image (infer : Inference) (r : Nat)
    (prompt : List Char) (seed : Int) (steps : Int) : GenImageResult :=
  if validate_prompt prompt = false then
    .err invalidPromptMsg seed steps
  else
    match ImageGenerator.generate infer r prompt seed (clampSteps steps) with
    | .ok (img, usedSeed) =>
        .ok img usedSeed (clampSteps steps) (truncate100 prompt)
    | .error e => .err e seed (clampSteps steps)

/-- A JSON value as it appears in the endpoint response bodies. -/
inductive JsonVal where
  | str (s : List Char)
  | int (n : Int)
  | bool (b : Bool)
  | null
  deriving DecidableEq

/-- An HTTP response: status code and JSON object body (field list). -/
structure HTTPResponse where
  status : Nat
  body : List (String × JsonVal)
  deriving DecidableEq

/-- Text of str(HTTPException(status_code=400, detail="Invalid prompt")),
which starlette renders as "status_code: detail". -/
def invalidPromptExcText : List Char :=
  "400: Invalid prompt".data

/-- The f-string "Server error: {str(e)}" of the endpoint catch-all. -/
def serverErrorText (e : List Char) : List Char :=
  "Server error: ".data ++ e

/-- The POST /generate endpoint.  The whole handler body sits inside a
try/except Exception block, so the HTTPException(400) raised on prompt
validation failure is itself caught by the catch-all and turned into a
500 response. -/
def generate_endpoint (infer : Inference) (r : Nat)
    (prompt : List Char) (steps : Int) (seed : Int) : HTTPResponse :=
  if validate_prompt prompt = false then
    ⟨500, [("success", .bool false),
           ("error", .str (serverErrorText invalidPromptExcText))]⟩
  else
    match generate_image infer r (enhance_prompt prompt) seed (clampSteps steps) with
    | .ok img usedSeed usedSteps _ =>
        ⟨200, [("success", .bool true),
               ("image", .str img),
               ("seed", .int usedSeed),
               ("steps", .int usedSteps),
               ("original_prompt", .str prompt),
               ("enhanced_prompt", .str (truncate100 (enhance_prompt prompt)))]⟩
    | .err e _ _ =>
        ⟨500, [("success", .bool false), ("error", .str e)]⟩

/-- Outcome of looking up a file on the filesystem: absent, readable
content, or an exception while reading. -/
inductive FileOutcome where
  | missing
  | readError (msg : List Char)
  | content (bytes : List Nat)

/-- load_default_image: return the base64 encoding of the file contents,
or None when the file is absent or reading raises. b64 models the
base64.b64encode(...).decode() library call, fs the filesystem. -/
def load_default_image (b64 : List Nat → List Char)
    (fs : List Char → FileOutcome) (filename : List Char) :
    Option (List Char) :=
  match fs filename with
  | .content bytes => some (b64 bytes)
  | .missing => none
  | .readError _ => none

/-- The GET /default-preview endpoint: always a 200 JSON object with the
default prompt and the (possibly null) default image. -/
def get_default_preview (b64 : List Nat → List Char)
    (fs : List Char → FileOutcome) : HTTPResponse :=
  ⟨200, [("prompt", .str Config.DEFAULT_PROMPT),
         ("image",
          match load_default_image b64 fs Config.DEFAULT_IMAGE_FILE with
          | some s => .str s
          | none => .null)]⟩

/-- An inference oracle that always succeeds with an empty image, used to
instantiate witnesses. -/
def constInfer : Inference :=
  fun _ _ _ => .ok []

/-- An inference oracle that always raises, used to instantiate
witnesses. -/
def failInfer (e : List Char) : Inference :=
  fun _ _ _ => .error e

/- Helper lemmas. -/

/-- validate_prompt returns false exactly on whitespace-only (or empty)
prompts and on prompts longer than 1000 characters. -/
theorem validate_prompt_false_iff (p : List Char) :
    validate_prompt p = false ↔ (pyStrip p).length = 0 ∨ 1000 < p.length := by
  unfold validate_prompt
  cases hpe : p.isEmpty with
  | true =>
      have hnil : p = [] := by cases p <;> simp_all
      subst hnil
      simp [pyStrip]
  | false =>
      by_cases h0 : (pyStrip p).length = 0
      · simp [hpe, h0]
      · by_cases h1000 : 1000 < p.length
        · simp [hpe, h0, h1000]
        · simp [hpe, h0, h1000]

/-- Clamping is idempotent: the clamped value lies in [1, MAX_STEPS]. -/
theorem clampSteps_idem (s : Int) : clampSteps (clampSteps s) = clampSteps s := by
  unfold clampSteps Config.MAX_STEPS Config.DEFAULT_STEPS
  split
  · rfl
  · norm_num

/-- A non-sentinel seed is passed through unchanged. -/
theorem resolveSeed_ne (r : Nat) (seed : Int) (h : seed ≠ Config.DEFAULT_SEED) :
    resolveSeed r seed = seed := by
  unfold resolveSeed
  exact if_neg h

/- Claim theorems. -/

set_option maxRecDepth 20000 in
/-- C1 (code_bug evidence): a POST /generate request with an empty prompt,
and one with a 1001-character prompt, both fail validation, yet the
endpoint answers with HTTP status 500 (the HTTPException(400) raised in
the handler is swallowed by its own except-Exception catch-all), not with
a client-error 4xx status. -/
theorem invalid_prompt_returns_500 :
    (generate_endpoint constInfer 0 [] 4 (-1)).status = 500 ∧
    (generate_endpoint constInfer 0 [] 4 (-1)).body.lookup "success"
      = some (.bool false) ∧
    (generate_endpoint constInfer 0 (List.replicate 1001 'a') 4 (-1)).status
      = 500 := by
  decide

/-- C2 (counterexample): the single-space prompt has length 1, which is
neither 0 nor greater than 1000, yet validate_prompt rejects it, so
rejection is not determined by raw length alone. -/
theorem validate_prompt_not_raw_length :
    ¬ (validate_prompt (" ".data) = false ↔
        ((" ".data).length = 0 ∨ 1000 < (" ".data).length)) := by
  decide

/-- C2 (amended): validate_prompt rejects a prompt exactly when its
stripped length is 0 (it is empty or whitespace-only) or its raw length
exceeds 1000, and accepts it otherwise. -/
theorem validate_prompt_rejects_iff (p : List Char) :
    validate_prompt p = false ↔ (pyStrip p).length = 0 ∨ 1000 < p.length :=
  validate_prompt_false_iff p

/-- C5: the enhanced prompt equals the stripped user prompt followed by
the fixed anime style suffix, hence it always ends with that suffix. -/
theorem enhance_prompt_ends_with_suffix (p : List Char) :
    enhance_prompt p = pyStrip p ++ Config.ANIME_STYLE_SUFFIX ∧
    Config.ANIME_STYLE_SUFFIX <:+ enhance_prompt p :=
  ⟨rfl, pyStrip p, rfl⟩

/-- On a valid prompt whose enhanced form also validates, a successful
inference yields the full 200 success response. -/
theorem generate_endpoint_ok (infer : Inference) (r : Nat)
    (prompt img : List Char) (steps seed : Int)
    (hv : validate_prompt prompt = true)
    (hve : validate_prompt (enhance_prompt prompt) = true)
    (hok : infer (enhance_prompt prompt) (resolveSeed r seed) (clampSteps steps)
      = .ok img) :
    generate_endpoint infer r prompt steps seed =
      ⟨200, [("success", .bool true),
             ("image", .str img),
             ("seed", .int (resolveSeed r seed)),
             ("steps", .int (clampSteps steps)),
             ("original_prompt", .str prompt),
             ("enhanced_prompt", .str (truncate100 (enhance_prompt prompt)))]⟩ := by
  unfold generate_endpoint generate_image ImageGenerator.generate
  rw [hv, hve, clampSteps_idem, hok]
  simp

/-- On a valid prompt whose enhanced form also validates, a failed
inference yields the 500 failure response carrying the exception text. -/
theorem generate_endpoint_err (infer : Inference) (r : Nat)
    (prompt e : List Char) (steps seed : Int)
    (hv : validate_prompt prompt = true)
    (hve : validate_prompt (enhance_prompt prompt) = true)
    (herr : infer (enhance_prompt prompt) (resolveSeed r seed) (clampSteps steps)
      = .error e) :
    generate_endpoint infer r prompt steps seed =
      ⟨500, [("success", .bool false), ("error", .str e)]⟩ := by
  unfold generate_endpoint generate_image ImageGenerator.generate
  rw [hv, hve, clampSteps_idem, herr]
  simp

/-- C3: the step count reported in a successful /generate response, and
the step count recorded by generate_image, equal the submitted value when
it lies in [1, 8] and the default 4 otherwise. -/
theorem steps_clamped_in_pipeline (infer : Inference) (r : Nat)
    (prompt img : List Char) (steps seed : Int)
    (hv : validate_prompt prompt = true)
    (hve : validate_prompt (enhance_prompt prompt) = true)
    (hok : infer (enhance_prompt prompt) (resolveSeed r seed) (clampSteps steps)
      = .ok img) :
    (generate_endpoint infer r prompt steps seed).body.lookup "steps"
      = some (.int (if 1 ≤ steps ∧ steps ≤ 8 then steps else 4)) ∧
    (generate_image infer r (enhance_prompt prompt) seed steps).stepsUsed
      = (if 1 ≤ steps ∧ steps ≤ 8 then steps else 4) := by
  have hcl : clampSteps steps = if 1 ≤ steps ∧ steps ≤ 8 then steps else 4 := rfl
  constructor
  · rw [generate_endpoint_ok infer r prompt img steps seed hv hve hok, ← hcl]
    rfl
  · rw [← hcl]
    unfold generate_image ImageGenerator.generate
    rw [hve]
    cases infer (enhance_prompt prompt) (resolveSeed r seed) (clampSteps steps) <;>
      simp [GenImageResult.stepsUsed]

/-- C3 witness: submitting steps = 9 with a valid prompt and a successful
inference reports the default step count 4. -/
theorem steps_clamped_in_pipeline_witness :
    (generate_endpoint constInfer 0 ("hello".data) 9 7).body.lookup "steps"
      = some (.int (if 1 ≤ (9 : Int) ∧ (9 : Int) ≤ 8 then 9 else 4)) ∧
    (generate_image constInfer 0 (enhance_prompt ("hello".data)) 7 9).stepsUsed
      = (if 1 ≤ (9 : Int) ∧ (9 : Int) ≤ 8 then 9 else 4) :=
  steps_clamped_in_pipeline constInfer 0 ("hello".data) [] 9 7
    (by decide) (by decide) rfl

/-- C4: when the sentinel seed -1 is submitted, ImageGenerator.generate
uses the value drawn by random.randint(0, 2**32 - 1) as the seed: the
generation runs with that value, returns it as the seed used, and the
value lies in [0, 2**32 - 1]. -/
theorem sentinel_seed_resolves_in_range (infer : Inference) (r : Nat)
    (prompt img : List Char) (steps : Int)
    (hr : r ≤ 2 ^ 32 - 1)
    (hok : infer prompt ((r : Nat) : Int) steps = .ok img) :
    ImageGenerator.generate infer r prompt Config.DEFAULT_SEED steps
      = .ok (img, (r : Int)) ∧
    0 ≤ (r : Int) ∧ (r : Int) ≤ 2 ^ 32 - 1 := by
  have hres : resolveSeed r Config.DEFAULT_SEED = (r : Int) := by
    unfold resolveSeed
    simp
  refine ⟨?_, Int.ofNat_nonneg r, ?_⟩
  · unfold ImageGenerator.generate
    rw [hres, hok]
  · have : (r : Int) ≤ ((2 ^ 32 - 1 : Nat) : Int) := Int.ofNat_le.mpr hr
    calc (r : Int) ≤ ((2 ^ 32 - 1 : Nat) : Int) := this
      _ = 2 ^ 32 - 1 := by norm_num

/-- C4 witness: with the random draw 5, the sentinel resolves to seed 5,
which lies in the 32-bit range. -/
theorem sentinel_seed_resolves_in_range_witness :
    ImageGenerator.generate constInfer 5 ("hi".data) Config.DEFAULT_SEED 4
      = .ok ([], (5 : Int)) ∧
    0 ≤ ((5 : Nat) : Int) ∧ ((5 : Nat) : Int) ≤ 2 ^ 32 - 1 :=
  sentinel_seed_resolves_in_range constInfer 5 ("hi".data) [] 4
    (by norm_num) rfl

/-- C6: an exception inside the remote inference call is caught by
generate_image, which returns the failure dictionary whose error entry is
the exception text, and the /generate endpoint forwards it as a 500
response with success false and that same error text; the inference
oracle is consulted exactly once, with no retry. -/
theorem inference_error_propagates (infer : Inference) (r : Nat)
    (prompt e : List Char) (steps seed : Int)
    (hv : validate_prompt prompt = true)
    (hve : validate_prompt (enhance_prompt prompt) = true)
    (herr : infer (enhance_prompt prompt) (resolveSeed r seed) (clampSteps steps)
      = .error e) :
    generate_image infer r (enhance_prompt prompt) seed (clampSteps steps)
      = .err e seed (clampSteps steps) ∧
    generate_endpoint infer r prompt steps seed
      = ⟨500, [("success", .bool false), ("error", .str e)]⟩ := by
  constructor
  · unfold generate_image ImageGenerator.generate
    rw [hve, clampSteps_idem, herr]
    simp
  · exact generate_endpoint_err infer r prompt e steps seed hv hve herr

/-- C6 witness: an inference oracle that always raises "boom" yields the
failure dictionary and the 500 response carrying "boom". -/
theorem inference_error_propagates_witness :
    generate_image (failInfer ("boom".data)) 0
      (enhance_prompt ("hello".data)) 7 (clampSteps 4)
      = .err ("boom".data) 7 (clampSteps 4) ∧
    generate_endpoint (failInfer ("boom".data)) 0 ("hello".data) 4 7
      = ⟨500, [("success", .bool false), ("error", .str ("boom".data))]⟩ :=
  inference_error_propagates (failInfer ("boom".data)) 0 ("hello".data)
    ("boom".data) 4 7 (by decide) (by decide) rfl

/-- C8: a seed other than the sentinel -1 (here including values at or
above 2**32 and negative values) is passed through unchanged, and the
seed field of the successful response equals the submitted seed. -/
theorem seed_passed_through (infer : Inference) (r : Nat)
    (prompt img : List Char) (steps seed : Int)
    (hne : seed ≠ Config.DEFAULT_SEED)
    (hv : validate_prompt prompt = true)
    (hve : validate_prompt (enhance_prompt prompt) = true)
    (hok : infer (enhance_prompt prompt) seed (clampSteps steps) = .ok img) :
    resolveSeed r seed = seed ∧
    (generate_endpoint infer r prompt steps seed).body.lookup "seed"
      = some (.int seed) := by
  have hres := resolveSeed_ne r seed hne
  refine ⟨hres, ?_⟩
  have hok' : infer (enhance_prompt prompt) (resolveSeed r seed) (clampSteps steps)
      = .ok img := by
    rw [hres]
    exact hok
  rw [generate_endpoint_ok infer r prompt img steps seed hv hve hok', hres]
  rfl

/-- C8 witness: the out-of-32-bit-range seed 4294967301 = 2**32 + 5 is
reported back unchanged by a successful request. -/
theorem seed_passed_through_witness :
    resolveSeed 0 4294967301 = 4294967301 ∧
    (generate_endpoint constInfer 0 ("hello".data) 4 4294967301).body.lookup "seed"
      = some (.int 4294967301) :=
  seed_passed_through constInfer 0 ("hello".data) [] 4 4294967301
    (by decide) (by decide) (by decide) rfl

/-- C7: every /generate response is either a 200 success body carrying
exactly the fields success (true), image (a string), seed (an integer),
steps (an integer), original_prompt (the submitted prompt unchanged) and
enhanced_prompt (truncated with an ellipsis past 100 characters), or a
failure body with success false and an error field. -/
theorem generate_response_shape (infer : Inference) (r : Nat)
    (prompt : List Char) (steps seed : Int) :
    ((generate_endpoint infer r prompt steps seed).status = 200 ∧
     (generate_endpoint infer r prompt steps seed).body.map Prod.fst
       = ["success", "image", "seed", "steps", "original_prompt",
          "enhanced_prompt"] ∧
     (generate_endpoint infer r prompt steps seed).body.lookup "success"
       = some (.bool true) ∧
     (∃ img, (generate_endpoint infer r prompt steps seed).body.lookup "image"
       = some (.str img)) ∧
     (∃ s, (generate_endpoint infer r prompt steps seed).body.lookup "seed"
       = some (.int s)) ∧
     (∃ st, (generate_endpoint infer r prompt steps seed).body.lookup "steps"
       = some (.int st)) ∧
     (generate_endpoint infer r prompt steps seed).body.lookup "original_prompt"
       = some (.str prompt) ∧
     (generate_endpoint infer r prompt steps seed).body.lookup "enhanced_prompt"
       = some (.str (truncate100 (enhance_prompt prompt)))) ∨
    ((generate_endpoint infer r prompt steps seed).status = 500 ∧
     (generate_endpoint infer r prompt steps seed).body.lookup "success"
       = some (.bool false) ∧
     ∃ msg, (generate_endpoint infer r prompt steps seed).body.lookup "error"
       = some (.str msg)) := by
  unfold generate_endpoint
  split
  · exact Or.inr ⟨rfl, rfl, serverErrorText invalidPromptExcText, rfl⟩
  · split
    · next img usedSeed usedSteps tp heq =>
        exact Or.inl ⟨rfl, rfl, rfl, ⟨img, rfl⟩, ⟨usedSeed, rfl⟩,
          ⟨usedSteps, rfl⟩, rfl, rfl⟩
    · next e s st heq =>
        exact Or.inr ⟨rfl, rfl, e, rfl⟩

/-- C9: when a valid prompt's stripped length plus the suffix length
exceeds 1000, the endpoint accepts the original prompt but generate_image
re-validates the enhanced prompt against the same limit and fails, so the
request returns a 500 response with success false and the ValueError
text. -/
theorem overlong_enhanced_prompt_rejected (infer : Inference) (r : Nat)
    (prompt : List Char) (steps seed : Int)
    (hv : validate_prompt prompt = true)
    (hlen : 1000 < (pyStrip prompt).length + Config.ANIME_STYLE_SUFFIX.length) :
    validate_prompt (enhance_prompt prompt) = false ∧
    generate_endpoint infer r prompt steps seed
      = ⟨500, [("success", .bool false), ("error", .str invalidPromptMsg)]⟩ := by
  have hlen2 : 1000 < (enhance_prompt prompt).length := by
    unfold enhance_prompt
    rw [List.length_append]
    exact hlen
  have hvf : validate_prompt (enhance_prompt prompt) = false :=
    (validate_prompt_false_iff _).mpr (Or.inr hlen2)
  refine ⟨hvf, ?_⟩
  unfold generate_endpoint generate_image
  rw [hv, hvf]
  simp

/-- C9 witness: a 900-character prompt passes validation, but its
enhanced form (900 + 124 characters) is rejected, producing the 500
ValueError response. -/
theorem overlong_enhanced_prompt_rejected_witness :
    validate_prompt (enhance_prompt (List.replicate 900 'a')) = false ∧
    generate_endpoint constInfer 0 (List.replicate 900 'a') 4 7
      = ⟨500, [("success", .bool false), ("error", .str invalidPromptMsg)]⟩ :=
  overlong_enhanced_prompt_rejected constInfer 0 (List.replicate 900 'a') 4 7
    (by decide) (by decide)

/-- C10: when the default image file is absent or unreadable,
load_default_image returns none rather than raising, and GET
/default-preview still responds 200 with the default prompt and a null
image field. -/
theorem default_preview_tolerates_missing_image (b64 : List Nat → List Char)
    (fs : List Char → FileOutcome)
    (h : fs Config.DEFAULT_IMAGE_FILE = .missing ∨
         ∃ m, fs Config.DEFAULT_IMAGE_FILE = .readError m) :
    load_default_image b64 fs Config.DEFAULT_IMAGE_FILE = none ∧
    get_default_preview b64 fs
      = ⟨200, [("prompt", .str Config.DEFAULT_PROMPT), ("image", .null)]⟩ := by
  have hnone : load_default_image b64 fs Config.DEFAULT_IMAGE_FILE = none := by
    unfold load_default_image
    rcases h with h | ⟨m, h⟩ <;> rw [h]
  refine ⟨hnone, ?_⟩
  unfold get_default_preview
  rw [hnone]

/-- C10 witness: on a filesystem with no files at all, the default image
loads as none and the preview body carries the default prompt with a null
image. -/
theorem default_preview_tolerates_missing_image_witness :
    load_default_image (fun _ => []) (fun _ => .missing)
      Config.DEFAULT_IMAGE_FILE = none ∧
    get_default_preview (fun _ => []) (fun _ => .missing)
      = ⟨200, [("prompt", .str Config.DEFAULT_PROMPT), ("image", .null)]⟩ :=
  default_preview_tolerates_missing_image (fun _ => []) (fun _ => .missing)
    (Or.inl rfl)
